import Mathlib

/-!
Verification of the gateway request-authentication subsystem of the qckstrt
repository: the HMAC request signer, the CSRF double-submit token manager and
retry pipeline of the integration-test client, the federated data source
header interceptor, and the region sync-result invariant.

Machine words are modelled as `Nat` reduced modulo `2 ^ 32` where the source
algorithm (SHA-256) works on 32-bit words; bytes are `Nat` values below 256.
-/

namespace Qckstrt

/-! ## Byte-level primitives: UTF-8, SHA-256, HMAC, base64

`generateHmacHeader` in
`apps/backend/__tests__/integration/utils/test-context.ts` calls
`crypto.createHmac('sha256', secret).update(str).digest('base64')`.
The algorithms below are the FIPS 180-4 / RFC 2104 / RFC 4648 standards that
call denotes, embedded executably. -/

/-- UTF-8 encoding of one code point (as `node:crypto` hashes the JS string). -/
def charUtf8 (c : Char) : List Nat :=
  let n := c.toNat
  if n < 128 then [n]
  else if n < 2048 then [192 + n / 64, 128 + n % 64]
  else if n < 65536 then [224 + n / 4096, 128 + (n / 64) % 64, 128 + n % 64]
  else [240 + n / 262144, 128 + (n / 4096) % 64, 128 + (n / 64) % 64, 128 + n % 64]

/-- UTF-8 bytes of a string. -/
def strBytes (s : String) : List Nat :=
  (s.data.map charUtf8).flatten

/-- Truncation to a 32-bit word. -/
def w32 (n : Nat) : Nat := n % 4294967296

/-- 32-bit right rotation. -/
def rotr32 (n x : Nat) : Nat := w32 ((x >>> n) ||| (x <<< (32 - n)))

def ch32 (x y z : Nat) : Nat := (x &&& y) ^^^ ((x ^^^ 4294967295) &&& z)

def maj32 (x y z : Nat) : Nat := (x &&& y) ^^^ (x &&& z) ^^^ (y &&& z)

def bigSigma0 (x : Nat) : Nat := rotr32 2 x ^^^ rotr32 13 x ^^^ rotr32 22 x

def bigSigma1 (x : Nat) : Nat := rotr32 6 x ^^^ rotr32 11 x ^^^ rotr32 25 x

def smallSigma0 (x : Nat) : Nat := rotr32 7 x ^^^ rotr32 18 x ^^^ (x >>> 3)

def smallSigma1 (x : Nat) : Nat := rotr32 17 x ^^^ rotr32 19 x ^^^ (x >>> 10)

/-- The SHA-256 round constants. -/
def sha256K : List Nat :=
  [1116352408, 1899447441, 3049323471, 3921009573, 961987163,
   1508970993, 2453635748, 2870763221, 3624381080, 310598401,
   607225278, 1426881987, 1925078388, 2162078206, 2614888103,
   3248222580, 3835390401, 4022224774, 264347078, 604807628,
   770255983, 1249150122, 1555081692, 1996064986, 2554220882,
   2821834349, 2952996808, 3210313671, 3336571891, 3584528711,
   113926993, 338241895, 666307205, 773529912, 1294757372,
   1396182291, 1695183700, 1986661051, 2177026350, 2456956037,
   2730485921, 2820302411, 3259730800, 3345764771, 3516065817,
   3600352804, 4094571909, 275423344, 430227734, 506948616,
   659060556, 883997877, 958139571, 1322822218, 1537002063,
   1747873779, 1955562222, 2024104815, 2227730452, 2361852424,
   2428436474, 2756734187, 3204031479, 3329325298]

/-- The SHA-256 initial hash value. -/
def sha256H0 : List Nat :=
  [1779033703, 3144134277, 1013904242, 2773480762, 1359893119,
   2600822924, 528734635, 1541459225]

/-- Big-endian 8-byte encoding. -/
def be64 (n : Nat) : List Nat :=
  [(n >>> 56) % 256, (n >>> 48) % 256, (n >>> 40) % 256, (n >>> 32) % 256,
   (n >>> 24) % 256, (n >>> 16) % 256, (n >>> 8) % 256, n % 256]

/-- Big-endian 4-byte encoding. -/
def be32 (n : Nat) : List Nat :=
  [(n >>> 24) % 256, (n >>> 16) % 256, (n >>> 8) % 256, n % 256]

/-- SHA-256 padding: a 0x80 byte, zeros to 56 mod 64, then the bit length. -/
def sha256Pad (msg : List Nat) : List Nat :=
  msg ++ [128] ++ List.replicate ((119 - msg.length % 64) % 64) 0
      ++ be64 (msg.length * 8)

/-- Group bytes into 32-bit big-endian words. -/
def bytesToWords : List Nat → List Nat
  | a :: b :: c :: d :: rest => (((a * 256 + b) * 256 + c) * 256 + d) :: bytesToWords rest
  | _ => []

/-- Split a byte list into 64-byte chunks; the fuel bounds the number of
chunks and keeps the recursion structural so that it evaluates in the kernel. -/
def chunks64Go : Nat → List Nat → List (List Nat)
  | _, [] => []
  | 0, _ => []
  | fuel + 1, x :: rest => ((x :: rest).take 64) :: chunks64Go fuel ((x :: rest).drop 64)

/-- Split a byte list into 64-byte chunks. -/
def chunks64 (l : List Nat) : List (List Nat) :=
  chunks64Go l.length l

/-- Extend the 16 message words of a block to the 64-entry schedule. -/
def sha256Schedule (ws : List Nat) : Array Nat :=
  (List.range 48).foldl
    (fun w _ =>
      let t := w.size
      w.push (w32 (smallSigma1 (w.getD (t - 2) 0) + w.getD (t - 7) 0
        + smallSigma0 (w.getD (t - 15) 0) + w.getD (t - 16) 0)))
    ws.toArray

/-- One SHA-256 round on the working state `[a, b, c, d, e, f, g, h]`. -/
def sha256Round (w : Array Nat) (st : List Nat) (t : Nat) : List Nat :=
  let a := st.getD 0 0
  let b := st.getD 1 0
  let c := st.getD 2 0
  let d := st.getD 3 0
  let e := st.getD 4 0
  let f := st.getD 5 0
  let g := st.getD 6 0
  let h := st.getD 7 0
  let t1 := w32 (h + bigSigma1 e + ch32 e f g + sha256K.getD t 0 + w.getD t 0)
  let t2 := w32 (bigSigma0 a + maj32 a b c)
  [w32 (t1 + t2), a, b, c, w32 (d + t1), e, f, g]

/-- Compression of one 64-byte block into the running hash value. -/
def sha256Compress (h : List Nat) (block : List Nat) : List Nat :=
  let w := sha256Schedule (bytesToWords block)
  let st := (List.range 64).foldl (sha256Round w) h
  (h.zip st).map (fun p => w32 (p.1 + p.2))

/-- SHA-256 of a byte list, as a 32-byte list. -/
def sha256 (msg : List Nat) : List Nat :=
  ((chunks64 (sha256Pad msg)).foldl sha256Compress sha256H0).map be32 |>.flatten

/-- HMAC-SHA256 (RFC 2104) of a message under a key, both byte lists. -/
def hmacSha256 (key msg : List Nat) : List Nat :=
  let k0 := if 64 < key.length then sha256 key else key
  let kp := k0 ++ List.replicate (64 - k0.length) 0
  sha256 ((kp.map (fun b => b ^^^ 92)) ++ sha256 ((kp.map (fun b => b ^^^ 54)) ++ msg))

/-- The base64 alphabet (RFC 4648). -/
def b64Char (n : Nat) : Char :=
  "ABCDEFGHIJKLMNOPQRSTUVWXYZabcdefghijklmnopqrstuvwxyz0123456789+/".data.getD n 'A'

/-- Base64 encoding of a byte list, with padding, as `digest('base64')` emits. -/
def base64Encode : List Nat → String
  | [] => ""
  | [a] => String.mk [b64Char (a >>> 2), b64Char ((a % 4) <<< 4), '=', '=']
  | [a, b] => String.mk [b64Char (a >>> 2), b64Char (((a % 4) <<< 4) ||| (b >>> 4)),
      b64Char ((b % 16) <<< 2), '=']
  | a :: b :: c :: rest =>
      String.mk [b64Char (a >>> 2), b64Char (((a % 4) <<< 4) ||| (b >>> 4)),
        b64Char (((b % 16) <<< 2) ||| (c >>> 6)), b64Char (c % 64)] ++ base64Encode rest

/-! ## HMAC signer (`generateHmacHeader` in
`apps/backend/__tests__/integration/utils/test-context.ts`) -/

def hexDigit (n : Nat) : Char :=
  "0123456789abcdef".data.getD n '0'

/-- The escaping `JSON.stringify` applies inside a JSON string literal. -/
def jsonEscapeChar (c : Char) : List Char :=
  if c = '"' then ['\\', '"']
  else if c = '\\' then ['\\', '\\']
  else if c.toNat = 8 then ['\\', 'b']
  else if c.toNat = 9 then ['\\', 't']
  else if c.toNat = 10 then ['\\', 'n']
  else if c.toNat = 12 then ['\\', 'f']
  else if c.toNat = 13 then ['\\', 'r']
  else if c.toNat < 32 then ['\\', 'u', '0', '0', hexDigit (c.toNat / 16), hexDigit (c.toNat % 16)]
  else [c]

/-- A JSON string literal for `s`, as `JSON.stringify` renders it. -/
def jsonString (s : String) : String :=
  "\"" ++ String.mk ((s.data.map jsonEscapeChar).flatten) ++ "\""

/-- `JSON.stringify` of the four-field credentials object built in
`generateHmacHeader`, keys in insertion order, no whitespace. -/
def credentialsJson (username algorithm headers signature : String) : String :=
  "\x7b\"username\":" ++ jsonString username
    ++ ",\"algorithm\":" ++ jsonString algorithm
    ++ ",\"headers\":" ++ jsonString headers
    ++ ",\"signature\":" ++ jsonString signature ++ "\x7d"

/-- `method.toLowerCase()`, lowercasing character by character. -/
def strToLower (s : String) : String :=
  String.mk (s.data.map Char.toLower)

/-- The canonical signature base string:
lowercased method, space, path, newline, then the content-type line. -/
def signatureBaseString (method path contentType : String) : String :=
  strToLower method ++ " " ++ path ++ "\ncontent-type: " ++ contentType

/-- `generateHmacHeader` of `test-context.ts`, with the module-level
`HMAC_SECRET` and `HMAC_CLIENT_ID` environment constants as parameters. -/
def generateHmacHeader (secret clientId method path contentType : String) : String :=
  let headers := "@request-target,content-type"
  let signatureString := signatureBaseString method path contentType
  let signature := base64Encode (hmacSha256 (strBytes secret) (strBytes signatureString))
  "HMAC " ++ credentialsJson clientId "hmac-sha256" headers signature

/-! ## CSRF token manager and gateway request pipeline
(`fetchCsrfToken`, `getCsrfToken`, `clearCsrfToken`, `graphqlRequest` in
`apps/backend/__tests__/integration/utils/test-context.ts`)

The two module-level variables `csrfToken` and `csrfCookie` are threaded as an
explicit `CsrfState`; the network is an oracle giving the `set-cookie` header
of the n-th bootstrap GET and the response of the n-th POST, and the run
additionally returns a trace counting the HTTP calls made. -/

/-- Substring test, as the JS `String.prototype.includes`. -/
def hasSubstr (pat : List Char) : List Char → Bool
  | [] => pat.isEmpty
  | c :: cs => pat.isPrefixOf (c :: cs) || hasSubstr pat cs

/-- One attempt of the regex `/csrf-token=([^;]+)/` at the head of `cs`:
the literal must match and the greedy capture must be nonempty. -/
def csrfTokenMatchAt (cs : List Char) : Option String :=
  if "csrf-token=".data.isPrefixOf cs then
    let tok := (cs.drop 11).takeWhile (fun c => c ≠ ';')
    if tok.isEmpty then none else some (String.mk tok)
  else none

/-- Leftmost match of `/csrf-token=([^;]+)/`, resuming one character further
on each failed attempt, as a backtracking regex engine does. -/
def findCsrfGo : List Char → Option String
  | [] => none
  | c :: cs =>
    match csrfTokenMatchAt (c :: cs) with
    | some t => some t
    | none => findCsrfGo cs

/-- The capture of `/csrf-token=([^;]+)/.exec(s)`, if any. -/
def findCsrf (s : String) : Option String :=
  findCsrfGo s.data

/-- The two failure throws of `fetchCsrfToken` (the spec's `CsrfBootstrapError`). -/
inductive CsrfError where
  | noSetCookie
  | tokenNotFound
deriving DecidableEq

/-- `fetchCsrfToken`: parse the `set-cookie` header of the bootstrap GET
(`none` models an absent header) into a `(token, cookie)` pair. -/
def fetchCsrfToken (setCookie : Option String) : Except CsrfError (String × String) :=
  match setCookie with
  | none => .error .noSetCookie
  | some s =>
    match findCsrf s with
    | none => .error .tokenNotFound
    | some token => .ok (token, "csrf-token=" ++ token)

/-- The module-level CSRF cache, `csrfToken` and `csrfCookie`. -/
structure CsrfState where
  csrfToken : Option String
  csrfCookie : Option String
deriving DecidableEq

/-- `clearCsrfToken`: reset both cache variables to null. -/
def clearCsrfToken : CsrfState :=
  ⟨none, none⟩

/-- A parsed JSON response body: its `message` field, if it is a string,
plus an opaque remainder distinguishing bodies. -/
structure RespBody where
  message : Option String
  payload : String
deriving DecidableEq

/-- An HTTP response to a POST: status and parsed JSON body. -/
structure HttpResp where
  status : Nat
  body : RespBody
deriving DecidableEq

/-- The gateway as the test client sees it: the `set-cookie` header answered
to the n-th bootstrap GET, and the response to the n-th POST. -/
structure GatewayEnv where
  gets : Nat → Option String
  posts : Nat → HttpResp

/-- JS truthiness of a nullable string: null and the empty string are falsy. -/
def optTruthy : Option String → Bool
  | some s => !s.isEmpty
  | none => false

/-- `getCsrfToken`: return the cached pair when both variables are truthy,
else bootstrap via `fetchCsrfToken` (one GET) and fill the cache.
The `Nat` component counts bootstrap GETs performed so far. -/
def getCsrfToken (env : GatewayEnv) (st : CsrfState) (g : Nat) :
    Except CsrfError (String × String) × CsrfState × Nat :=
  if optTruthy st.csrfToken && optTruthy st.csrfCookie then
    (.ok (st.csrfToken.getD "", st.csrfCookie.getD ""), st, g)
  else
    match fetchCsrfToken (env.gets g) with
    | .error e => (.error e, st, g + 1)
    | .ok tc => (.ok tc, ⟨some tc.1, some tc.2⟩, g + 1)

/-- `errorBody.message?.includes('CSRF')`. -/
def msgHasCSRF (b : RespBody) : Bool :=
  match b.message with
  | some m => hasSubstr "CSRF".data m.data
  | none => false

/-- What one `graphqlRequest` call produced: the returned (or thrown) body,
the final CSRF cache, and the HTTP calls made. -/
structure Trace where
  getCount : Nat
  postCount : Nat
  retried : Bool
deriving DecidableEq

instance {ε α : Type} [DecidableEq ε] [DecidableEq α] : DecidableEq (Except ε α) := fun a b =>
  match a, b with
  | .ok x, .ok y => if h : x = y then .isTrue (by rw [h]) else .isFalse (by simp [h])
  | .error x, .error y => if h : x = y then .isTrue (by rw [h]) else .isFalse (by simp [h])
  | .ok _, .error _ => .isFalse (by simp)
  | .error _, .ok _ => .isFalse (by simp)

structure RunResult where
  result : Except CsrfError RespBody
  state : CsrfState
  trace : Trace
deriving DecidableEq

/-- `graphqlRequest`: acquire the CSRF pair, POST once; on a 403 whose body
message contains "CSRF", clear the cache, re-bootstrap, POST once more and
return that second body; any other response body is returned as is.
`trace.retried` records entry into the CSRF-retry branch. -/
def graphqlRequest (env : GatewayEnv) (st0 : CsrfState) : RunResult :=
  match getCsrfToken env st0 0 with
  | (.error e, st1, g1) => ⟨.error e, st1, ⟨g1, 0, false⟩⟩
  | (.ok _, st1, g1) =>
    let resp := env.posts 0
    if resp.status == 403 && msgHasCSRF resp.body then
      match getCsrfToken env clearCsrfToken g1 with
      | (.error e, st3, g2) => ⟨.error e, st3, ⟨g2, 1, true⟩⟩
      | (.ok _, st3, g2) => ⟨.ok (env.posts 1).body, st3, ⟨g2, 2, true⟩⟩
    else if resp.status == 403 then
      ⟨.ok resp.body, st1, ⟨g1, 1, false⟩⟩
    else
      ⟨.ok resp.body, st1, ⟨g1, 1, false⟩⟩

/-! ## Federated data source
(`HmacRemoteGraphQLDataSource.willSendRequest` in
`apps/backend/__tests__/integration/test-utils.ts`) -/

/-- The mutable header map of an outbound request; `set` overwrites. -/
structure Headers where
  entries : List (String × String)
deriving DecidableEq

def Headers.set (h : Headers) (k v : String) : Headers :=
  ⟨h.entries.filter (fun p => p.1 ≠ k) ++ [(k, v)]⟩

def Headers.get (h : Headers) (k : String) : Option String :=
  (h.entries.find? (fun p => p.1 = k)).map (fun p => p.2)

/-- The `http` part of an outbound subgraph request. -/
structure HttpPart where
  url : String
  headers : Headers
deriving DecidableEq

/-- An outbound subgraph request; `http` is optional in the Apollo type. -/
structure DSRequest where
  http : Option HttpPart
deriving DecidableEq

/-- `request.http?.headers.set(k, v)`: a no-op when `http` is absent. -/
def DSRequest.setHeader (r : DSRequest) (k v : String) : DSRequest :=
  match r.http with
  | none => r
  | some hp => ⟨some ⟨hp.url, hp.headers.set k v⟩⟩

/-- Header lookup through the optional `http` part. -/
def DSRequest.getHeader (r : DSRequest) (k : String) : Option String :=
  match r.http with
  | none => none
  | some hp => hp.headers.get k

/-- The gateway context handed to the data source. -/
structure GatewayContext where
  user : Option String
deriving DecidableEq

/-- The injected `HmacSignerService` as the data source consumes it: a
capability bit and the credential produced for a URL. -/
structure HmacSigner where
  enabled : Bool
  signGraphQLRequest : String → String

/-- Modelled from the spec: the `HmacSignerService` itself is not under the
sources provided; per the spec it reports itself disabled exactly when the
shared secret is empty or unset, and signs otherwise. -/
def mkHmacSigner (secret : Option String) (sign : String → String) : HmacSigner :=
  ⟨optTruthy secret, sign⟩

/-- The first statement of `willSendRequest`:
`if (context?.user) request.http?.headers.set('user', context.user)`. -/
def forwardUser (req : DSRequest) (ctx : Option GatewayContext) : DSRequest :=
  match ctx with
  | some c =>
    match c.user with
    | some u => if !u.isEmpty then req.setHeader "user" u else req
    | none => req
  | none => req

/-- `willSendRequest`: forward the authenticated user when the context is
truthy, then, when the signer is enabled and the request has a truthy URL,
attach the truthy credential as `X-HMAC-Auth`. -/
def willSendRequest (signer : HmacSigner) (req : DSRequest) (ctx : Option GatewayContext) :
    DSRequest :=
  let req1 := forwardUser req ctx
  if signer.enabled then
    match req1.http with
    | some hp =>
      if !hp.url.isEmpty then
        let hmacHeader := signer.signGraphQLRequest hp.url
        if !hmacHeader.isEmpty then req1.setHeader "X-HMAC-Auth" hmacHeader else req1
      else req1
    | none => req1
  else req1

/-! ## Region sync (`RegionDomainService.syncDataType`, `syncPropositions`,
`syncMeetings`, `syncRepresentatives`) -/

inductive CivicDataType where
  | propositions
  | meetings
  | representatives
deriving DecidableEq

/-- The `SyncResult` record (the reactive `syncedAt` wall-clock field is
passed in, since the embedding has no clock). -/
structure SyncResult where
  dataType : CivicDataType
  itemsProcessed : Nat
  itemsCreated : Nat
  itemsUpdated : Nat
  errors : List String
  syncedAt : Nat
deriving DecidableEq

/-- The common body of `syncPropositions` / `syncMeetings` /
`syncRepresentatives`: given the fetched items' external ids and the external
ids already in the table, return `(processed, created, updated)`; an empty
fetch short-circuits to zeros before touching the repository. -/
def syncCounts (fetchedIds : List String) (existingIds : List String) :
    Nat × Nat × Nat :=
  if fetchedIds.length = 0 then (0, 0, 0)
  else
    let created := (fetchedIds.filter (fun i => !existingIds.contains i)).length
    let updated := (fetchedIds.filter (fun i => existingIds.contains i)).length
    (fetchedIds.length, created, updated)

/-- `syncDataType`: dispatch to the per-type handler and wrap its counts in a
`SyncResult` with an empty error list. -/
def syncDataType (dt : CivicDataType)
    (fetchedPropIds fetchedMeetingIds fetchedRepIds : List String)
    (existingPropIds existingMeetingIds existingRepIds : List String)
    (now : Nat) : SyncResult :=
  let counts :=
    match dt with
    | .propositions => syncCounts fetchedPropIds existingPropIds
    | .meetings => syncCounts fetchedMeetingIds existingMeetingIds
    | .representatives => syncCounts fetchedRepIds existingRepIds
  { dataType := dt
    itemsProcessed := counts.1
    itemsCreated := counts.2.1
    itemsUpdated := counts.2.2
    errors := []
    syncedAt := now }

/-! ## Concrete fixtures evaluated by the closed theorems -/

/-- A stand-in credential producer for the injected signer. -/
def signFn : String → String := fun _ => "HMAC credential"

def emptyHeaders : Headers := ⟨[]⟩

/-- An outbound request to a subgraph, as the gateway prepares one. -/
def reqUsers : DSRequest := ⟨some ⟨"http://users:3001/graphql", emptyHeaders⟩⟩

/-- A 403 body whose message marks a CSRF failure. -/
def bodyCsrf403 : RespBody := ⟨some "Invalid CSRF token", "first-denied"⟩

def bodyOk : RespBody := ⟨none, "second-success"⟩

/-- A 403 body with a generic auth failure message. -/
def body403Plain : RespBody := ⟨some "Forbidden", "auth-denied"⟩

/-- A gateway answering CSRF-403 to the first POST and 200 to the second. -/
def envRetry : GatewayEnv :=
  ⟨fun _ => some "csrf-token=fresh42; Path=/",
   fun n => if n = 0 then ⟨403, bodyCsrf403⟩ else ⟨200, bodyOk⟩⟩

/-- A gateway answering a non-CSRF 403 to every POST. -/
def envPlain403 : GatewayEnv :=
  ⟨fun _ => some "csrf-token=fresh42; Path=/", fun _ => ⟨403, body403Plain⟩⟩

/-- A warm CSRF cache. -/
def stWarm : CsrfState := ⟨some "tok1", some "csrf-token=tok1"⟩

/-- An enabled signer with the integration-test secret. -/
def signerOn : HmacSigner := mkHmacSigner (some "integration-test-hmac-secret") signFn

/-- An enabled signer whose credential producer returns the empty string. -/
def signerEmptySign : HmacSigner :=
  mkHmacSigner (some "integration-test-hmac-secret") (fun _ => "")

/-- An outbound request whose http part carries an empty URL. -/
def reqNoUrl : DSRequest := ⟨some ⟨"", emptyHeaders⟩⟩

/-! ## Theorems

Helper lemmas first, then one theorem per verified claim (with its closed
witness where the theorem carries hypotheses). -/

set_option maxRecDepth 40000

/-- A string built from a nonempty character list is nonempty. -/
theorem mk_isEmpty_false (tok : List Char) (h : tok.isEmpty = false) :
    (String.mk tok).isEmpty = false := by
  rw [Bool.eq_false_iff]
  intro hh
  rw [String.isEmpty_iff] at hh
  simp at h
  exact h (congrArg String.data hh)

/-- A successful match of the token pattern yields a nonempty capture. -/
theorem csrfTokenMatchAt_ne_empty (cs : List Char) (t : String)
    (h : csrfTokenMatchAt cs = some t) : t.isEmpty = false := by
  simp only [csrfTokenMatchAt] at h
  split at h
  · split at h
    · exact absurd h (by simp)
    · next hne =>
      obtain rfl := Option.some.inj h
      exact mk_isEmpty_false _ (Bool.not_eq_true _ ▸ hne)
  · exact absurd h (by simp)

/-- The regex search only ever returns a nonempty capture. -/
theorem findCsrfGo_ne_empty (cs : List Char) (t : String)
    (h : findCsrfGo cs = some t) : t.isEmpty = false := by
  induction cs with
  | nil => exact absurd h (by simp [findCsrfGo])
  | cons c rest ih =>
    unfold findCsrfGo at h
    split at h
    · next t0 hm =>
      obtain rfl := Option.some.inj h
      exact csrfTokenMatchAt_ne_empty _ _ hm
    · exact ih h

/-- A cookie string prefixed with the cookie name is nonempty. -/
theorem cookie_isEmpty_false (t : String) : ("csrf-token=" ++ t).isEmpty = false := by
  rw [Bool.eq_false_iff]
  intro h
  rw [String.isEmpty_iff] at h
  have h2 := congrArg String.length h
  simp [String.length_append] at h2
  exact (by decide : ¬ ("csrf-token=".length = 0)) h2.1

/-- A successful bootstrap returns a nonempty token and the derived cookie. -/
theorem fetchCsrfToken_ok (so : Option String) (tc : String × String)
    (h : fetchCsrfToken so = .ok tc) :
    tc.1.isEmpty = false ∧ tc.2 = "csrf-token=" ++ tc.1 := by
  unfold fetchCsrfToken at h
  match so with
  | none => exact absurd h (by simp)
  | some s =>
    simp only at h
    split at h
    · exact absurd h (by simp)
    · next tok hm =>
      obtain rfl := Except.ok.inj h
      exact ⟨findCsrfGo_ne_empty _ _ hm, rfl⟩

/-- C6: a second `getCsrfToken` with no intervening `clearCsrfToken` returns
the identical pair, leaves the cache unchanged and performs no further
bootstrap GET (the GET counter stays put). -/
theorem getCsrfToken_cached (env : GatewayEnv) (st : CsrfState) (g : Nat)
    (p : String × String) (st1 : CsrfState) (g1 : Nat)
    (h : getCsrfToken env st g = (.ok p, st1, g1)) :
    getCsrfToken env st1 g1 = (.ok p, st1, g1) := by
  unfold getCsrfToken at h ⊢
  split at h
  · next hc =>
    simp only [Prod.mk.injEq] at h
    obtain ⟨h1, h2, h3⟩ := h
    subst h2
    subst h3
    rw [if_pos hc, h1]
  · split at h
    · exact absurd (congrArg Prod.fst h) (by simp)
    · next tc hfetch =>
      simp only [Prod.mk.injEq] at h
      obtain ⟨h1, h2, h3⟩ := h
      obtain rfl := Except.ok.inj h1
      subst h2
      subst h3
      obtain ⟨hne, hck⟩ := fetchCsrfToken_ok _ _ hfetch
      rw [if_pos]
      · simp
      · simp only [optTruthy, hne, hck]
        simp [cookie_isEmpty_false]

/-- Witness for the cache idempotence at the state the first bootstrap left. -/
theorem getCsrfToken_cached_witness :
    getCsrfToken envRetry ⟨some "fresh42", some "csrf-token=fresh42"⟩ 1
      = (.ok ("fresh42", "csrf-token=fresh42"),
          ⟨some "fresh42", some "csrf-token=fresh42"⟩, 1) :=
  getCsrfToken_cached envRetry clearCsrfToken 0 ("fresh42", "csrf-token=fresh42")
    ⟨some "fresh42", some "csrf-token=fresh42"⟩ 1 (by decide)

/-- A warm truthy cache is returned as is, with no HTTP call. -/
theorem getCsrfToken_warm (env : GatewayEnv) (t c : String) (g : Nat)
    (ht : t.isEmpty = false) (hc : c.isEmpty = false) :
    getCsrfToken env ⟨some t, some c⟩ g = (.ok (t, c), ⟨some t, some c⟩, g) := by
  unfold getCsrfToken
  rw [if_pos]
  · simp
  · simp [optTruthy, ht, hc]

/-- A cleared cache bootstraps: one GET, and the fetched pair is cached. -/
theorem getCsrfToken_cold (env : GatewayEnv) (g : Nat) (t2 c2 : String)
    (hboot : fetchCsrfToken (env.gets g) = .ok (t2, c2)) :
    getCsrfToken env clearCsrfToken g = (.ok (t2, c2), ⟨some t2, some c2⟩, g + 1) := by
  unfold getCsrfToken clearCsrfToken
  rw [if_neg (by simp [optTruthy])]
  rw [hboot]

/-- C7: the CSRF bootstrap fails exactly when the response has no set-cookie
header or the token pattern cannot be located in it; on success it returns
the captured token and the cookie string derived 1:1 from it. -/
theorem fetchCsrfToken_spec (so : Option String) :
    ((∃ e, fetchCsrfToken so = .error e)
        ↔ so = none ∨ ∃ s, so = some s ∧ findCsrf s = none)
    ∧ (∀ s t, so = some s → findCsrf s = some t →
        fetchCsrfToken so = .ok (t, "csrf-token=" ++ t)) := by
  constructor
  · constructor
    · rintro ⟨e, he⟩
      unfold fetchCsrfToken at he
      match so with
      | none => exact Or.inl rfl
      | some s =>
        refine Or.inr ⟨s, rfl, ?_⟩
        dsimp only at he
        split at he
        · assumption
        · exact absurd he (by simp)
    · rintro (rfl | ⟨s, rfl, hf⟩)
      · exact ⟨.noSetCookie, rfl⟩
      · exact ⟨.tokenNotFound, by unfold fetchCsrfToken; dsimp only; rw [hf]⟩
  · rintro s t rfl hf
    unfold fetchCsrfToken
    dsimp only
    rw [hf]

/-- Witness: the spec scenario set-cookie header yields token abc123 and
cookie csrf-token=abc123. -/
theorem fetchCsrfToken_spec_witness :
    fetchCsrfToken (some "csrf-token=abc123; Path=/")
      = .ok ("abc123", "csrf-token=abc123") :=
  (fetchCsrfToken_spec (some "csrf-token=abc123; Path=/")).2
    "csrf-token=abc123; Path=/" "abc123" rfl (by decide)

/-- C1 (amended): with a warm cache, a CSRF-class 403 on the first POST and a
parseable re-bootstrap, `graphqlRequest` returns the second POST response
body after exactly 2 POSTs and 1 bootstrap GET (3 HTTP calls in total). -/
theorem graphqlRequest_csrf_retry (env : GatewayEnv) (t c t2 c2 : String)
    (ht : t.isEmpty = false) (hc : c.isEmpty = false)
    (h403 : (env.posts 0).status = 403) (hm : msgHasCSRF (env.posts 0).body = true)
    (hboot : fetchCsrfToken (env.gets 0) = .ok (t2, c2)) :
    graphqlRequest env ⟨some t, some c⟩ =
      ⟨.ok (env.posts 1).body, ⟨some t2, some c2⟩, ⟨1, 2, true⟩⟩ := by
  unfold graphqlRequest
  rw [getCsrfToken_warm env t c 0 ht hc]
  simp only [h403, hm]
  rw [getCsrfToken_cold env 0 t2 c2 hboot]
  simp

/-- C1 counterexample: in the exact scenario of the claim (CSRF-class 403 on
the first POST, 200 on the second) the run makes 3 HTTP calls, not 2, because
re-fetching the invalidated pair is itself an HTTP GET. -/
theorem graphqlRequest_two_calls_cex :
    (envRetry.posts 0).status = 403 ∧ msgHasCSRF (envRetry.posts 0).body = true
    ∧ (envRetry.posts 1).status = 200
    ∧ (graphqlRequest envRetry stWarm).result = .ok (envRetry.posts 1).body
    ∧ (graphqlRequest envRetry stWarm).trace.getCount
        + (graphqlRequest envRetry stWarm).trace.postCount = 3
    ∧ ¬ ((graphqlRequest envRetry stWarm).trace.getCount
        + (graphqlRequest envRetry stWarm).trace.postCount = 2) := by decide

/-- Witness for the retry-once theorem on the concrete mocked gateway. -/
theorem graphqlRequest_csrf_retry_witness :
    graphqlRequest envRetry ⟨some "tok1", some "csrf-token=tok1"⟩
      = ⟨.ok (envRetry.posts 1).body,
          ⟨some "fresh42", some "csrf-token=fresh42"⟩, ⟨1, 2, true⟩⟩ :=
  graphqlRequest_csrf_retry envRetry "tok1" "csrf-token=tok1" "fresh42" "csrf-token=fresh42"
    (by decide) (by decide) (by decide) (by decide) (by decide)

/-- Any response whose body message lacks the CSRF marker is returned
directly: one POST, no GET, no retry. -/
theorem graphqlRequest_non_csrf_403 (env : GatewayEnv) (t c : String)
    (ht : t.isEmpty = false) (hc : c.isEmpty = false)
    (hm : msgHasCSRF (env.posts 0).body = false) :
    graphqlRequest env ⟨some t, some c⟩ =
      ⟨.ok (env.posts 0).body, ⟨some t, some c⟩, ⟨0, 1, false⟩⟩ := by
  unfold graphqlRequest
  rw [getCsrfToken_warm env t c 0 ht hc]
  dsimp only
  rw [if_neg (by simp [hm])]
  split <;> rfl

/-- The retry branch is entered exactly when the first POST returns 403 with
a CSRF-marked message. -/
theorem graphqlRequest_retried_iff (env : GatewayEnv) (t c : String)
    (ht : t.isEmpty = false) (hc : c.isEmpty = false) :
    (graphqlRequest env ⟨some t, some c⟩).trace.retried
      = ((env.posts 0).status == 403 && msgHasCSRF (env.posts 0).body) := by
  unfold graphqlRequest
  rw [getCsrfToken_warm env t c 0 ht hc]
  dsimp only
  split
  · next hcond =>
    rw [hcond]
    split <;> rfl
  · next hcond =>
    rw [Bool.not_eq_true] at hcond
    rw [hcond]
    split <;> rfl

/-- C4: with a warm cache, a 403 whose body message does not contain CSRF is
returned as the result of exactly 1 HTTP call with no retry, and the retry
path is triggered if and only if the 403 body message contains CSRF. -/
theorem graphqlRequest_non_csrf_spec (env : GatewayEnv) (t c : String)
    (ht : t.isEmpty = false) (hc : c.isEmpty = false) :
    (msgHasCSRF (env.posts 0).body = false →
      graphqlRequest env ⟨some t, some c⟩
        = ⟨.ok (env.posts 0).body, ⟨some t, some c⟩, ⟨0, 1, false⟩⟩)
    ∧ (graphqlRequest env ⟨some t, some c⟩).trace.retried
        = ((env.posts 0).status == 403 && msgHasCSRF (env.posts 0).body) :=
  ⟨fun hm => graphqlRequest_non_csrf_403 env t c ht hc hm,
   graphqlRequest_retried_iff env t c ht hc⟩

/-- Witness: the generic-403 mocked gateway is answered by 1 HTTP call. -/
theorem graphqlRequest_non_csrf_spec_witness :
    (graphqlRequest envPlain403 ⟨some "tok1", some "csrf-token=tok1"⟩
      = ⟨.ok (envPlain403.posts 0).body,
          ⟨some "tok1", some "csrf-token=tok1"⟩, ⟨0, 1, false⟩⟩)
    ∧ (graphqlRequest envPlain403 ⟨some "tok1", some "csrf-token=tok1"⟩).trace.retried
      = ((envPlain403.posts 0).status == 403 && msgHasCSRF (envPlain403.posts 0).body) :=
  ⟨(graphqlRequest_non_csrf_spec envPlain403 "tok1" "csrf-token=tok1"
      (by decide) (by decide)).1 (by decide),
   (graphqlRequest_non_csrf_spec envPlain403 "tok1" "csrf-token=tok1"
      (by decide) (by decide)).2⟩

/-- C5: for every gateway behavior and every starting cache, one
`graphqlRequest` issues at most 2 POSTs; the retry branch presupposes a
CSRF-class 403 on the first POST; and once retried, the outcome is the second
POST response body (or the re-bootstrap failure), never a further retry. -/
theorem graphqlRequest_budget (env : GatewayEnv) (st : CsrfState) :
    (graphqlRequest env st).trace.postCount ≤ 2
    ∧ ((graphqlRequest env st).trace.retried = true →
        (env.posts 0).status = 403 ∧ msgHasCSRF (env.posts 0).body = true)
    ∧ ((graphqlRequest env st).trace.retried = true →
        (graphqlRequest env st).result = .ok (env.posts 1).body
          ∨ ∃ e, (graphqlRequest env st).result = .error e) := by
  unfold graphqlRequest
  split
  · simp
  · dsimp only
    split
    · next hcond =>
      rw [Bool.and_eq_true] at hcond
      have h1 : (env.posts 0).status = 403 := by have := hcond.1; simpa using this
      have h2 : msgHasCSRF (env.posts 0).body = true := hcond.2
      split
      · simp [h1, h2]
      · simp [h1, h2]
    · split
      · simp
      · simp

/-- Witness for the retry budget on the concrete retrying gateway. -/
theorem graphqlRequest_budget_witness :
    (graphqlRequest envRetry stWarm).trace.postCount ≤ 2
    ∧ ((envRetry.posts 0).status = 403 ∧ msgHasCSRF (envRetry.posts 0).body = true)
    ∧ ((graphqlRequest envRetry stWarm).result = .ok (envRetry.posts 1).body
        ∨ ∃ e, (graphqlRequest envRetry stWarm).result = .error e) :=
  ⟨(graphqlRequest_budget envRetry stWarm).1,
   (graphqlRequest_budget envRetry stWarm).2.1 (by decide),
   (graphqlRequest_budget envRetry stWarm).2.2 (by decide)⟩

/-- C2: the signer emits the HMAC-prefixed structured credential whose
signature field is the base64 HMAC-SHA256, under the secret, of the canonical
base string; and the spec scenario produces exactly the expected base64
signature. -/
theorem generateHmacHeader_spec :
    (∀ secret clientId method path contentType : String,
      generateHmacHeader secret clientId method path contentType =
        "HMAC " ++ credentialsJson clientId "hmac-sha256" "@request-target,content-type"
          (base64Encode (hmacSha256 (strBytes secret)
            (strBytes (strToLower method ++ " " ++ path ++ "\ncontent-type: " ++ contentType)))))
    ∧ base64Encode (hmacSha256 (strBytes "s3cr3t")
        (strBytes "post /graphql\ncontent-type: application/json"))
        = "WYUfYq6SfCvO4VbyL/lTAtnZxK6Jobhmg3UPJqlyCX4="
    ∧ generateHmacHeader "s3cr3t" "api-gateway" "POST" "/graphql" "application/json"
        = "HMAC \x7b\"username\":\"api-gateway\",\"algorithm\":\"hmac-sha256\",\"headers\":\"@request-target,content-type\",\"signature\":\"WYUfYq6SfCvO4VbyL/lTAtnZxK6Jobhmg3UPJqlyCX4=\"\x7d" := by
  have hbase : signatureBaseString "POST" "/graphql" "application/json"
      = "post /graphql\ncontent-type: application/json" := by decide
  have hsig : base64Encode (hmacSha256 (strBytes "s3cr3t")
      (strBytes "post /graphql\ncontent-type: application/json"))
      = "WYUfYq6SfCvO4VbyL/lTAtnZxK6Jobhmg3UPJqlyCX4=" := by decide
  refine ⟨fun secret clientId method path contentType => rfl, hsig, ?_⟩
  show "HMAC " ++ credentialsJson "api-gateway" "hmac-sha256" "@request-target,content-type"
      (base64Encode (hmacSha256 (strBytes "s3cr3t")
        (strBytes (signatureBaseString "POST" "/graphql" "application/json")))) = _
  rw [hbase, hsig]
  decide

/-- SHA-256 of the standard abc test vector, validating the hash embedding
against FIPS 180-4. -/
theorem sha256_abc :
    sha256 (strBytes "abc")
      = [186, 120, 22, 191, 143, 1, 207, 234, 65, 65, 64, 222, 93, 174, 34, 35,
         176, 3, 97, 163, 150, 23, 122, 156, 180, 16, 255, 97, 242, 0, 21, 173] := by
  decide

/-- Finding under the key-dropping filter fails. -/
theorem find_filter_none (l : List (String × String)) (k : String) :
    (l.filter (fun p => p.1 ≠ k)).find? (fun p => p.1 = k) = none := by
  induction l with
  | nil => rfl
  | cons x xs ih =>
    by_cases hx : x.1 = k
    · simp [List.filter_cons, hx, ih]
    · simp [List.filter_cons, List.find?_cons, hx, ih]

/-- Dropping one key leaves lookups of other keys unchanged. -/
theorem find_filter_other (l : List (String × String)) (k k' : String) (hne : k' ≠ k) :
    (l.filter (fun p => p.1 ≠ k)).find? (fun p => p.1 = k')
      = l.find? (fun p => p.1 = k') := by
  have hkk : ¬ k = k' := fun heq => hne heq.symm
  induction l with
  | nil => rfl
  | cons x xs ih =>
    by_cases hx : x.1 = k
    · simpa [List.filter_cons, List.find?_cons, hx, hkk] using ih
    · by_cases hx' : x.1 = k'
      · simp [List.filter_cons, List.find?_cons, hx, hx', hne]
      · simpa [List.filter_cons, List.find?_cons, hx, hx'] using ih

/-- Setting a header makes it readable. -/
theorem headers_get_set_same (h : Headers) (k v : String) :
    (h.set k v).get k = some v := by
  unfold Headers.set Headers.get
  rw [List.find?_append, find_filter_none]
  simp [List.find?_cons]

/-- Setting a header leaves every other header unchanged. -/
theorem headers_get_set_other (h : Headers) (k k' v : String) (hne : k' ≠ k) :
    (h.set k v).get k' = h.get k' := by
  have hkk : ¬ k = k' := fun heq => hne heq.symm
  unfold Headers.set Headers.get
  rw [List.find?_append, find_filter_other _ _ _ hne]
  cases hf : h.entries.find? (fun p => p.1 = k') with
  | some p => rfl
  | none => simp [List.find?_cons, hkk]

/-- Request-level reading of a freshly set header. -/
theorem getHeader_setHeader_same (r : DSRequest) (hp : HttpPart) (k v : String)
    (hhttp : r.http = some hp) : (r.setHeader k v).getHeader k = some v := by
  unfold DSRequest.setHeader DSRequest.getHeader
  rw [hhttp]
  exact headers_get_set_same hp.headers k v

/-- Request-level header setting leaves other headers unchanged. -/
theorem getHeader_setHeader_other (r : DSRequest) (k k' v : String) (hne : k' ≠ k) :
    (r.setHeader k v).getHeader k' = r.getHeader k' := by
  cases hhttp : r.http with
  | none => simp [DSRequest.setHeader, DSRequest.getHeader, hhttp]
  | some hp =>
    simp [DSRequest.setHeader, DSRequest.getHeader, hhttp]
    exact headers_get_set_other hp.headers k k' v hne

/-- Setting a header preserves the URL of the http part. -/
theorem setHeader_http (r : DSRequest) (hp : HttpPart) (k v : String)
    (hhttp : r.http = some hp) :
    (r.setHeader k v).http = some ⟨hp.url, hp.headers.set k v⟩ := by
  unfold DSRequest.setHeader
  rw [hhttp]

/-- User forwarding touches only the user header. -/
theorem forwardUser_getHeader_ne (req : DSRequest) (ctx : Option GatewayContext)
    (k : String) (hk : k ≠ "user") :
    (forwardUser req ctx).getHeader k = req.getHeader k := by
  unfold forwardUser
  split
  · split
    · split
      · exact getHeader_setHeader_other req "user" k _ hk
      · rfl
    · rfl
  · rfl

/-- A request with no http part passes through user forwarding untouched. -/
theorem forwardUser_http_none (req : DSRequest) (ctx : Option GatewayContext)
    (hhttp : req.http = none) : forwardUser req ctx = req := by
  unfold forwardUser
  split
  · split
    · split
      · simp [DSRequest.setHeader, hhttp]
      · rfl
    · rfl
  · rfl

/-- User forwarding preserves presence and URL of the http part. -/
theorem forwardUser_http_some (req : DSRequest) (ctx : Option GatewayContext)
    (hp : HttpPart) (hhttp : req.http = some hp) :
    ∃ hs : Headers, (forwardUser req ctx).http = some ⟨hp.url, hs⟩ := by
  unfold forwardUser
  split
  · split
    · split
      · exact ⟨_, setHeader_http req hp "user" _ hhttp⟩
      · exact ⟨hp.headers, by rw [hhttp]⟩
    · exact ⟨hp.headers, by rw [hhttp]⟩
  · exact ⟨hp.headers, by rw [hhttp]⟩

/-- The signing step never touches the user header. -/
theorem willSendRequest_getHeader_user (signer : HmacSigner) (req : DSRequest)
    (ctx : Option GatewayContext) :
    (willSendRequest signer req ctx).getHeader "user"
      = (forwardUser req ctx).getHeader "user" := by
  unfold willSendRequest
  dsimp only
  split
  · split
    · split
      · split
        · exact getHeader_setHeader_other _ "X-HMAC-Auth" "user" _ (by decide)
        · rfl
      · rfl
    · rfl
  · rfl

/-- C3: when the signer reports itself disabled because the shared secret is
empty or unset, the data source attaches no X-HMAC-Auth header to any
outbound request; signing is skipped entirely. -/
theorem willSendRequest_disabled (secret : Option String) (sign : String → String)
    (req : DSRequest) (ctx : Option GatewayContext)
    (hsec : secret = none ∨ secret = some "") :
    (willSendRequest (mkHmacSigner secret sign) req ctx).getHeader "X-HMAC-Auth"
      = req.getHeader "X-HMAC-Auth" := by
  have hen : (mkHmacSigner secret sign).enabled = false := by
    rcases hsec with rfl | rfl <;> rfl
  unfold willSendRequest
  dsimp only
  rw [hen]
  simp only [Bool.false_eq_true, if_false]
  exact forwardUser_getHeader_ne req ctx "X-HMAC-Auth" (by decide)

/-- Witness: the unset-secret signer adds no X-HMAC-Auth to a live request. -/
theorem willSendRequest_disabled_witness :
    (willSendRequest (mkHmacSigner none signFn) reqUsers
        (some ⟨some "u-1"⟩)).getHeader "X-HMAC-Auth"
      = reqUsers.getHeader "X-HMAC-Auth" :=
  willSendRequest_disabled none signFn reqUsers (some ⟨some "u-1"⟩) (Or.inl rfl)

/-- C8: an authenticated user identity in the gateway context is forwarded
verbatim as the user header of the outbound request, and with no user
identity in the context the user header is left untouched. -/
theorem willSendRequest_user (signer : HmacSigner) (req : DSRequest)
    (hp : HttpPart) (u : String) (hhttp : req.http = some hp)
    (hu : u.isEmpty = false) :
    (willSendRequest signer req (some ⟨some u⟩)).getHeader "user" = some u
    ∧ ∀ ctx : Option GatewayContext, (ctx = none ∨ ctx = some ⟨none⟩) →
        (willSendRequest signer req ctx).getHeader "user" = req.getHeader "user" := by
  constructor
  · rw [willSendRequest_getHeader_user]
    unfold forwardUser
    dsimp only
    rw [hu]
    simp only [Bool.not_false, if_true]
    exact getHeader_setHeader_same req hp "user" u hhttp
  · intro ctx hctx
    rw [willSendRequest_getHeader_user]
    rcases hctx with rfl | rfl <;> rfl

/-- Witness: context user u-1 is forwarded; an absent context forwards
nothing. -/
theorem willSendRequest_user_witness :
    (willSendRequest signerOn reqUsers (some ⟨some "u-1"⟩)).getHeader "user" = some "u-1"
    ∧ (willSendRequest signerOn reqUsers none).getHeader "user"
        = reqUsers.getHeader "user" :=
  ⟨(willSendRequest_user signerOn reqUsers ⟨"http://users:3001/graphql", emptyHeaders⟩
      "u-1" rfl (by decide)).1,
   (willSendRequest_user signerOn reqUsers ⟨"http://users:3001/graphql", emptyHeaders⟩
      "u-1" rfl (by decide)).2 none (Or.inl rfl)⟩

/-- C10: no X-HMAC-Auth header is attached when the http part is absent
(the request is returned untouched), when the URL is empty, or when the
signer produces an empty credential, even with the signer enabled. -/
theorem willSendRequest_degenerate (signer : HmacSigner) :
    (∀ ctx, willSendRequest signer ⟨none⟩ ctx = ⟨none⟩)
    ∧ (∀ req : DSRequest, ∀ hp ctx, req.http = some hp → hp.url.isEmpty = true →
        (willSendRequest signer req ctx).getHeader "X-HMAC-Auth"
          = req.getHeader "X-HMAC-Auth")
    ∧ (∀ req : DSRequest, ∀ hp ctx, req.http = some hp →
        (signer.signGraphQLRequest hp.url).isEmpty = true →
        (willSendRequest signer req ctx).getHeader "X-HMAC-Auth"
          = req.getHeader "X-HMAC-Auth") := by
  refine ⟨?_, ?_, ?_⟩
  · intro ctx
    have h1 : forwardUser ⟨none⟩ ctx = ⟨none⟩ := forwardUser_http_none _ _ rfl
    unfold willSendRequest
    dsimp only
    rw [h1]
    split <;> rfl
  · intro req hp ctx hhttp hurl
    obtain ⟨hs, h1⟩ := forwardUser_http_some req ctx hp hhttp
    have hne := forwardUser_getHeader_ne req ctx "X-HMAC-Auth" (by decide)
    unfold willSendRequest
    dsimp only
    rw [h1]
    dsimp only
    rw [hurl]
    split
    · simp only [Bool.not_true, Bool.false_eq_true, if_false]
      exact hne
    · exact hne
  · intro req hp ctx hhttp hsig
    obtain ⟨hs, h1⟩ := forwardUser_http_some req ctx hp hhttp
    have hne := forwardUser_getHeader_ne req ctx "X-HMAC-Auth" (by decide)
    unfold willSendRequest
    dsimp only
    rw [h1]
    dsimp only
    rw [hsig]
    split
    · split
      · simp only [Bool.not_true, Bool.false_eq_true, if_false]
        exact hne
      · exact hne
    · exact hne

/-- Witness: the three degenerate cases at concrete requests and signers. -/
theorem willSendRequest_degenerate_witness :
    willSendRequest signerOn ⟨none⟩ none = ⟨none⟩
    ∧ (willSendRequest signerOn reqNoUrl none).getHeader "X-HMAC-Auth"
        = reqNoUrl.getHeader "X-HMAC-Auth"
    ∧ (willSendRequest signerEmptySign reqUsers none).getHeader "X-HMAC-Auth"
        = reqUsers.getHeader "X-HMAC-Auth" :=
  ⟨(willSendRequest_degenerate signerOn).1 none,
   (willSendRequest_degenerate signerOn).2.1 reqNoUrl ⟨"", emptyHeaders⟩ none rfl (by decide),
   (willSendRequest_degenerate signerEmptySign).2.2 reqUsers
      ⟨"http://users:3001/graphql", emptyHeaders⟩ none rfl (by decide)⟩

/-- Filtering a list by a predicate and by its negation partitions it. -/
theorem length_filter_not_add (l : List String) (p : String → Bool) :
    (l.filter (fun i => !p i)).length + (l.filter p).length = l.length := by
  induction l with
  | nil => rfl
  | cons x xs ih =>
    by_cases hx : p x <;> simp [List.filter_cons, hx] <;> omega

/-- C9: every SyncResult returned by syncDataType has an empty error list and
satisfies itemsProcessed = itemsCreated + itemsUpdated, for every data type
and every provider and repository content. -/
theorem syncDataType_invariant (dt : CivicDataType)
    (fp fm fr ep em er : List String) (now : Nat) :
    (syncDataType dt fp fm fr ep em er now).errors = []
    ∧ (syncDataType dt fp fm fr ep em er now).itemsProcessed
        = (syncDataType dt fp fm fr ep em er now).itemsCreated
          + (syncDataType dt fp fm fr ep em er now).itemsUpdated := by
  have key : ∀ f e : List String,
      (syncCounts f e).1 = (syncCounts f e).2.1 + (syncCounts f e).2.2 := by
    intro f e
    unfold syncCounts
    split
    · rfl
    · dsimp only
      exact (length_filter_not_add f (fun i => e.contains i)).symm
  refine ⟨rfl, ?_⟩
  unfold syncDataType
  dsimp only
  cases dt <;> exact key _ _

end Qckstrt
